import Mathlib

/-!
Verification of the SNMP check (src/checks.d/snmp.py) against its
natural-language specification.  The Python module is shallowly embedded:
pure data flow becomes Lean functions, the `service_check_error` slot of
the mutable `instance` dictionary becomes explicit `Option String` threading,
calls to the metric sink and logger of the agent framework become entries in an
explicit event list, and Python exceptions become `Except String`.
-/

set_option autoImplicit false

namespace Snmp

/-- Modelled from the spec: the metric sink and diagnostics facility of the
agent framework (`AgentCheck.rate`, `AgentCheck.gauge`,
`AgentCheck.service_check`, `self.log`), which live outside `src/`.
Each call the check makes to the framework is recorded as one event,
in call order. -/
inductive Event where
  | rate (name : String) (value : Int) (tags : List String)
  | gauge (name : String) (value : Int) (tags : List String)
  | serviceCheck (name : String) (critical : Bool) (tags : List String)
      (message : Option String)
  | warn (msg : String)
  | debug (msg : String)
deriving DecidableEq, Repr

/-- A decoded SNMP wire value: either a typed value carrying its pysnmp
class name and integer content, or one of the two invalid-reply
sentinels (`noSuchInstance` / `noSuchObject` from `pysnmp.smi.exval`). -/
inductive SnmpValue where
  | val (cls : String) (n : Int)
  | noSuchInstance
  | noSuchObject
deriving DecidableEq, Repr

/-- `snmp_value.__class__.__name__` of the embedded value. -/
def SnmpValue.className : SnmpValue → String
  | .val cls _ => cls
  | .noSuchInstance => "NoSuchInstance"
  | .noSuchObject => "NoSuchObject"

/-- `int(snmp_value)`; only reached on Counter/Gauge classed values. -/
def SnmpValue.intValue : SnmpValue → Int
  | .val _ n => n
  | _ => 0

/-- `value.prettyPrint()`: the textual rendering pysnmp gives a value. -/
def SnmpValue.prettyPrint : SnmpValue → String
  | .val _ n => toString n
  | .noSuchInstance => "No Such Instance currently exists at this OID"
  | .noSuchObject => "No Such Object currently exists at this OID"

/-- `reply_invalid(oid)` (snmp.py lines 26-28): true exactly on the two
invalid-reply sentinels. -/
def reply_invalid : SnmpValue → Bool
  | .noSuchInstance => true
  | .noSuchObject => true
  | .val _ _ => false

/-- `SNMP_COUNTERS` (snmp.py lines 19-21): class names submitted as rates. -/
def SNMP_COUNTERS : List String :=
  ["Counter32", "Counter64", "ZeroBasedCounter64"]

/-- `SNMP_GAUGES` (snmp.py lines 22-24): class names submitted as gauges. -/
def SNMP_GAUGES : List String :=
  ["Gauge32", "Unsigned32", "CounterBasedGauge64"]

/-- Modelled from the spec: `AgentCheck.normalize(name, prefix="snmp")`
(agent framework, outside `src/`) prefixes the metric name for emission. -/
def normalize (name pfx : String) : String := pfx ++ "." ++ name

/-- Python `s.startswith(q)`, modelled on the character list (the Lean
builtin is byte-position based and does not reduce in the kernel). -/
def pyStartsWith (s q : String) : Bool := q.data.isPrefixOf s.data

/-- Python `s.endswith(q)`, modelled on the character list. -/
def pyEndsWith (s q : String) : Bool := q.data.isSuffixOf s.data

/-- Python `s[:-n]` for `n` at most `len(s)`: drop the last `n`
characters. -/
def pyDropRight (s : String) (n : Nat) : String :=
  String.mk (s.data.take (s.data.length - n))

/-- The three outcomes of wire-type classification. -/
inductive MetricKind where
  | counter
  | gauge
  | unsupported
deriving DecidableEq, Repr

/-- The classification performed by `submit_metric` (snmp.py lines 332-344):
exact class-name equality against `SNMP_COUNTERS`, then `SNMP_GAUGES`. -/
def classify (cls : String) : MetricKind :=
  if SNMP_COUNTERS.contains cls then .counter
  else if SNMP_GAUGES.contains cls then .gauge
  else .unsupported

/-- `SnmpCheck.submit_metric` (snmp.py lines 316-344). -/
def submit_metric (name : String) (snmp_value : SnmpValue)
    (tags : List String) : List Event :=
  if reply_invalid snmp_value then
    [.warn ("No such Mib available: " ++ name)]
  else
    let metric_name := normalize name "snmp"
    let snmp_class := snmp_value.className
    if SNMP_COUNTERS.contains snmp_class then
      [.rate metric_name snmp_value.intValue tags]
    else if SNMP_GAUGES.contains snmp_class then
      [.gauge metric_name snmp_value.intValue tags]
    else
      [.warn ("Unsupported metric type " ++ snmp_class)]

/-! ### Python dictionaries as insertion-ordered association lists -/

/-- Python `d[k]` read (raises `KeyError` when absent — `none` here). -/
def dictGet? {κ α : Type} [DecidableEq κ] : List (κ × α) → κ → Option α
  | [], _ => none
  | (k', v) :: rest, k => if k' = k then some v else dictGet? rest k

/-- Python `d[k] = v`: overwrite in place when the key exists, append
otherwise. -/
def dictSet {κ α : Type} [DecidableEq κ] : List (κ × α) → κ → α → List (κ × α)
  | [], k, v => [(k, v)]
  | (k', v') :: rest, k, v =>
    if k' = k then (k', v) :: rest else (k', v') :: dictSet rest k v

/-! ### Walk data -/

/-- One row index: the tuple pysnmp attaches to a resolved OID
(`object[2]` of `getMibSymbol()`). -/
abbrev RowIndex := List SnmpValue

/-- One `(result_oid, value)` pair of a walk reply, carrying both views the
source uses: `asTuple()` for raw mode and `getMibSymbol()` (MIB name,
symbol name, index tuple) for resolved mode. -/
structure VarBind where
  oidTuple : List Nat
  mibName : String
  symbolName : String
  indexes : RowIndex
  value : SnmpValue
deriving DecidableEq, Repr

/-- The 4-tuple `nextCmd` hands back:
`(errorIndication, errorStatus, errorIndex, var_binds)`.
`errorIndication` and `errorStatus` are carried as their rendered
messages (`errorStatus.prettyPrint()` is applied by the caller). -/
structure WalkReply where
  errorIndication : Option String
  errorStatus : Option String
  varBinds : List (List VarBind)
deriving DecidableEq, Repr

/-- An entry of the result dictionary built by `check_table`.  The source
stores, under one `defaultdict(dict)`, either a nested `dict[index] = value`
(resolved mode, line 151) or the bare value (raw mode, line 155). -/
inductive RSEntry where
  | flat (v : SnmpValue)
  | nested (rows : List (RowIndex × SnmpValue))
deriving DecidableEq, Repr

/-- The dictionary `check_table` returns. -/
abbrev ResultSet := List (String × RSEntry)

/-- The resolved-mode result dictionary consumed by
`report_table_metrics` and `get_index_tags`: every entry is nested. -/
abbrev TableResults := List (String × List (RowIndex × SnmpValue))

/-- `".".join([str(i) for i in oid])` (snmp.py line 154). -/
def dotted (oid : List Nat) : String :=
  String.intercalate "." (oid.map toString)

/-- `results[metric][indexes] = value` on a `defaultdict(dict)`
(snmp.py line 151). -/
def storeResolved (acc : TableResults) (b : VarBind) : TableResults :=
  dictSet acc b.symbolName (dictSet (dictGet? acc b.symbolName |>.getD []) b.indexes b.value)

/-- `results[matching] = value` (snmp.py line 155): a plain assignment —
the value is stored directly under the dotted string, with no row-index
level. -/
def storeRaw (acc : ResultSet) (b : VarBind) : ResultSet :=
  dictSet acc (dotted b.oidTuple) (RSEntry.flat b.value)

/-- Error handling shared by both modes of `check_table`
(snmp.py lines 133-143). -/
inductive WalkOutcome where
  | fatal (msg : String)
  | stopEarly (msg : String)
  | proceed
deriving DecidableEq, Repr

/-- Decides which error-handling branch of `check_table` runs, and the
`"{0} for instance {1}"` message it formats. -/
def walkOutcome (ip : String) (reply : WalkReply) : WalkOutcome :=
  match reply.errorIndication with
  | some e => .fatal (e ++ " for instance " ++ ip)
  | none =>
    match reply.errorStatus with
    | some st => .stopEarly (st ++ " for instance " ++ ip)
    | none => .proceed

/-- `SnmpCheck.check_table` with `lookup_names=True` (snmp.py lines
109-157, resolved branch of the row loop).  Returns the updated
`service_check_error` slot, the emitted events, and either the raised
exception message or the result dictionary.  The source is one function
whose `lookup_names` flag is constant per call; it is split here into the
two per-mode variants `check` actually invokes. -/
def check_table_resolved (ip : String) (reply : WalkReply)
    (scErr : Option String) :
    Option String × List Event × Except String TableResults :=
  match walkOutcome ip reply with
  | .fatal m => (some m, [], .error m)
  | .stopEarly m => (some m, [.warn m], .ok [])
  | .proceed => (scErr, [], .ok (reply.varBinds.flatten.foldl storeResolved []))

/-- `SnmpCheck.check_table` with `lookup_names=False` (snmp.py lines
109-157, raw branch of the row loop). -/
def check_table_raw (ip : String) (reply : WalkReply)
    (scErr : Option String) :
    Option String × List Event × Except String ResultSet :=
  match walkOutcome ip reply with
  | .fatal m => (some m, [], .error m)
  | .stopEarly m => (some m, [.warn m], .ok [])
  | .proceed => (scErr, [], .ok (reply.varBinds.flatten.foldl storeRaw []))

/-! ### Configuration -/

/-- One entry of the `metric_tags` list of a metric: the `tag` key plus either
an `index` position or a `column` name. -/
structure TagConf where
  tag : String
  index : Option Int
  column : Option String
deriving DecidableEq, Repr

/-- One entry of the `metrics` list of the instance; each `Option` field models
presence of the corresponding key in the YAML dictionary. -/
structure MetricConf where
  MIB : Option String
  table : Option String
  symbol : Option String
  OID : Option String
  name : Option String
  symbols : List String
  metric_tags : List TagConf
deriving DecidableEq, Repr

/-- A metric spec with every key absent (building block for examples). -/
def emptyMetric : MetricConf :=
  ⟨none, none, none, none, none, [], []⟩

/-- Rendering of a metric spec used in error messages (the source
interpolates the Python dict with `%s`; any faithful injective rendering
serves to identify the offending spec). -/
def MetricConf.render (m : MetricConf) : String :=
  "MIB=" ++ toString m.MIB ++ ", table=" ++ toString m.table ++
  ", symbol=" ++ toString m.symbol ++ ", OID=" ++ toString m.OID ++
  ", name=" ++ toString m.name

/-- A metric spec with a `MIB` key but neither `table` nor `symbol`:
the planning assertion fails and the spec is dropped with a warning. -/
def malformedMibMetric : MetricConf :=
  ⟨some "IF-MIB", none, none, none, none, [], []⟩

/-- The device/instance configuration consumed by `check`. -/
structure Instance where
  ip_address : String
  tags : List String
  metrics : List MetricConf
deriving DecidableEq, Repr

/-- A `cmdgen.MibVariable(MIB, to_query)` reference appended to the table
query set. -/
abbrev MibVar := String × String

/-- The planning loop of `SnmpCheck.check` (snmp.py lines 170-188).
Walks the `metrics` list building `(table_oids, raw_oids)`:
- a spec with `MIB`: `assert "table" in metric or "symbol" in metric`;
  on failure the exception is caught and only a warning is emitted
  (the spec is omitted), otherwise a MIB reference is appended;
- a spec with `OID`: a trailing `.0` is stripped (with a debug line),
  then the dotted string is appended;
- any other spec: `raise Exception(...)` — this exception is NOT caught
  (the loop runs before the `try` block), so planning aborts here. -/
def plan_metrics : List MetricConf →
    List Event × Except String (List MibVar × List String)
  | [] => ([], .ok ([], []))
  | m :: ms =>
    if m.MIB.isSome then
      match m.table, m.symbol with
      | none, none =>
        let (evs, r) := plan_metrics ms
        (.warn ("Can not generate MIB object for variable : " ++ m.render) :: evs, r)
      | t, s =>
        let to_query := t.getD (s.getD "")
        let (evs, r) := plan_metrics ms
        (evs, r.map fun p => ((m.MIB.getD "", to_query) :: p.1, p.2))
    else
      match m.OID with
      | some o =>
        if pyEndsWith o ".0" then
          let (evs, r) := plan_metrics ms
          (.debug "Removing the trailing .0 in the oid" :: evs,
           r.map fun p => (p.1, pyDropRight o 2 :: p.2))
        else
          let (evs, r) := plan_metrics ms
          (evs, r.map fun p => (p.1, o :: p.2))
      | none =>
        ([], .error ("Unsupported metric in config file: " ++ m.render))

/-! ### Tag resolution -/

/-- Python list indexing `l[i]` with negative-index semantics; `none`
models `IndexError`. -/
def pyGet (l : RowIndex) (i : Int) : Option SnmpValue :=
  if 0 ≤ i then l.get? i.toNat
  else if 0 ≤ (l.length : Int) + i then l.get? ((l.length : Int) + i).toNat
  else none

/-- First loop of `get_index_tags` (snmp.py lines 293-300): index-based
tags. -/
def idxTagsLoop (index : RowIndex) :
    List (String × Int) → List Event × List String
  | [] => ([], [])
  | (g, p) :: rest =>
    let (evs, tags) := idxTagsLoop index rest
    match pyGet index (p - 1) with
    | none => (.warn "Not enough indexes, skipping this tag" :: evs, tags)
    | some c => (evs, (g ++ ":" ++ c.prettyPrint) :: tags)

/-- `results[col_tag[1]][index]` (snmp.py line 304): both an absent column
and an absent index raise `KeyError` (`none`). -/
def colLookup (results : TableResults) (c : String) (index : RowIndex) :
    Option SnmpValue :=
  match dictGet? results c with
  | none => none
  | some m => dictGet? m index

/-- Second loop of `get_index_tags` (snmp.py lines 301-313): column-based
tags. -/
def colTagsLoop (index : RowIndex) (results : TableResults) :
    List (String × String) → List Event × List String
  | [] => ([], [])
  | (g, c) :: rest =>
    let (evs, tags) := colTagsLoop index results rest
    match colLookup results c index with
    | none =>
      (.warn ("Column " ++ c ++ " not present in the table, skipping this tag") :: evs,
       tags)
    | some v =>
      if reply_invalid v then
        (.warn ("Can not deduct tag from column for tag " ++ g) :: evs, tags)
      else
        (evs, (g ++ ":" ++ v.prettyPrint) :: tags)

/-- `SnmpCheck.get_index_tags` (snmp.py lines 280-314). -/
def get_index_tags (index : RowIndex) (results : TableResults)
    (index_tags : List (String × Int)) (column_tags : List (String × String)) :
    List Event × List String :=
  let (e1, t1) := idxTagsLoop index index_tags
  let (e2, t2) := colTagsLoop index results column_tags
  (e1 ++ e2, t1 ++ t2)

/-! ### Reporting -/

/-- Splitting of `metric_tags` into index-based and column-based tags
(snmp.py lines 251-258). -/
def splitTags : List TagConf →
    List Event × List (String × Int) × List (String × String)
  | [] => ([], [], [])
  | t :: rest =>
    let (evs, its, cts) := splitTags rest
    match t.index with
    | some i => (evs, (t.tag, i) :: its, cts)
    | none =>
      match t.column with
      | some c => (evs, its, (t.tag, c) :: cts)
      | none =>
        (.warn "No indication on what value to use for this tag" :: evs, its, cts)

/-- Inner row loop of the `table` branch (snmp.py lines 261-265). -/
def reportRows (tags : List String) (results : TableResults)
    (itags : List (String × Int)) (ctags : List (String × String))
    (name : String) : List (RowIndex × SnmpValue) → List Event
  | [] => []
  | (idx, val) :: rest =>
    let (gEvs, gTags) := get_index_tags idx results itags ctags
    gEvs ++ submit_metric name val (tags ++ gTags) ++
      reportRows tags results itags ctags name rest

/-- Symbol loop of the `table` branch (snmp.py lines 260-265):
`results[value_to_collect]` on the `defaultdict` yields the empty dict
for an uncollected symbol. -/
def reportSymbols (tags : List String) (results : TableResults)
    (itags : List (String × Int)) (ctags : List (String × String)) :
    List String → List Event
  | [] => []
  | s :: rest =>
    reportRows tags results itags ctags s ((dictGet? results s).getD []) ++
      reportSymbols tags results itags ctags rest

/-- Metric loop of `SnmpCheck.report_table_metrics` (snmp.py lines
247-278).  The `symbol` branch indexes `result[0]` without an emptiness
check: with zero rows Python raises `IndexError` (modelled as
`Except.error "list index out of range"`); with more than one row it
calls the logger and skips.  A spec with none of `table`/`symbol`/`OID`
raises (line 278) — inside the `try` of the orchestrator, hence caught there. -/
def reportTableGo (tags : List String) (results : TableResults) :
    List MetricConf → List Event × Except String Unit
  | [] => ([], .ok ())
  | m :: ms =>
    if m.table.isSome then
      let (tagEvs, itags, ctags) := splitTags m.metric_tags
      let evs := tagEvs ++ reportSymbols tags results itags ctags m.symbols
      let (evs', r) := reportTableGo tags results ms
      (evs ++ evs', r)
    else
      match m.symbol with
      | some name =>
        let rows := (dictGet? results name).getD []
        if rows.length > 1 then
          let (evs, r) := reportTableGo tags results ms
          (.warn "Several rows corresponding while the metric is supposed to be a scalar" :: evs,
           r)
        else
          match rows with
          | [] => ([], .error "list index out of range")
          | (_, v) :: _ =>
            let (evs, r) := reportTableGo tags results ms
            (submit_metric name v tags ++ evs, r)
      | none =>
        if m.OID.isSome then
          reportTableGo tags results ms
        else
          ([], .error ("Unsupported metric in config file: " ++ m.render))

/-- `SnmpCheck.report_table_metrics` (snmp.py lines 237-278). -/
def report_table_metrics (inst : Instance) (results : TableResults) :
    List Event × Except String Unit :=
  reportTableGo (inst.tags ++ ["snmp_device:" ++ inst.ip_address]) results
    inst.metrics

/-- The `for oid in results: ... break / else: ...` scan of
`report_raw_metrics` (snmp.py lines 226-229): first entry whose dotted
key has the configured OID as prefix. -/
def firstMatch (results : ResultSet) (queried : String) :
    Option (String × RSEntry) :=
  results.find? (fun p => pyStartsWith p.1 queried)

/-- Metric loop of `SnmpCheck.report_raw_metrics` (snmp.py lines
223-235).  When the matched entry is a nested dictionary the subsequent
`reply_invalid` call would fault in Python (`AttributeError` on a dict) —
modelled as an error; raw-mode results only hold flat entries, so the
branch is unreachable from `check`. -/
def reportRawGo (tags : List String) (results : ResultSet) :
    List MetricConf → List Event × Except String Unit
  | [] => ([], .ok ())
  | m :: ms =>
    match m.OID with
    | none => reportRawGo tags results ms
    | some queried =>
      match firstMatch results queried with
      | none =>
        let (evs, r) := reportRawGo tags results ms
        (.warn ("No matching results found for oid " ++ queried) :: evs, r)
      | some (_, .flat v) =>
        let (evs, r) := reportRawGo tags results ms
        (submit_metric (m.name.getD "unnamed_metric") v tags ++ evs, r)
      | some (_, .nested _) => ([], .error "AttributeError")

/-- `SnmpCheck.report_raw_metrics` (snmp.py lines 213-235). -/
def report_raw_metrics (inst : Instance) (results : ResultSet) :
    List Event × Except String Unit :=
  reportRawGo (inst.tags ++ ["snmp_device:" ++ inst.ip_address]) results
    inst.metrics

/-! ### The orchestrator -/

/-- The behaviour of the device for the two walks one poll cycle can issue. -/
structure Device where
  tableReply : WalkReply
  rawReply : WalkReply
deriving DecidableEq, Repr

/-- First half of the `try` block of `SnmpCheck.check` (snmp.py lines
190-193): the table-query walk and its reporting. -/
def tablePhase (inst : Instance) (dev : Device) (table_oids : List MibVar) :
    Option String × List Event × Except String Unit :=
  let ip := inst.ip_address
  if table_oids.isEmpty then (none, [], .ok ())
  else
    let dbg := Event.debug
      ("Querying device " ++ ip ++ " for " ++ toString table_oids.length ++ " oids")
    let (sc, evW, res) := check_table_resolved ip dev.tableReply none
    match res with
    | .error e => (sc, dbg :: evW, .error e)
    | .ok results =>
      let (evR, rR) := report_table_metrics inst results
      (sc, dbg :: evW ++ evR, rR)

/-- Second half of the `try` block of `SnmpCheck.check` (snmp.py lines
195-198): the raw-query walk and its reporting, receiving the
`service_check_error` slot as left by the table phase. -/
def rawPhase (inst : Instance) (dev : Device) (scErr1 : Option String)
    (raw_oids : List String) :
    Option String × List Event × Except String Unit :=
  let ip := inst.ip_address
  if raw_oids.isEmpty then (scErr1, [], .ok ())
  else
    let dbg := Event.debug
      ("Querying device " ++ ip ++ " for " ++ toString raw_oids.length ++ " oids")
    let (sc2, evW2, res2) := check_table_raw ip dev.rawReply scErr1
    match res2 with
    | .error e => (sc2, dbg :: evW2, .error e)
    | .ok results =>
      let (evR2, rR2) := report_raw_metrics inst results
      (sc2, dbg :: evW2 ++ evR2, rR2)

/-- Body of the `try` block of `SnmpCheck.check` (snmp.py lines 189-198):
the table-query walk+report, then the raw-query walk+report, threading
the `service_check_error` slot, stopping at the first exception. -/
def runQueries (inst : Instance) (dev : Device)
    (table_oids : List MibVar) (raw_oids : List String) :
    Option String × List Event × Except String Unit :=
  let (scErr1, evs1, r1) := tablePhase inst dev table_oids
  match r1 with
  | .error e => (scErr1, evs1, .error e)
  | .ok () =>
    let (sc2, evs2, r2) := rawPhase inst dev scErr1 raw_oids
    (sc2, evs1 ++ evs2, r2)

/-- `SnmpCheck.check` (snmp.py lines 159-211).  The planning loop runs
BEFORE the `try`/`finally`, so a planning exception propagates without
any service check; otherwise the `finally` always emits exactly one
`snmp.can_check` service check: CRITICAL with the captured message when
the `service_check_error` slot is set (by a fatal walk indication, a
protocol error status, or the `except` clause), OK otherwise. -/
def check (inst : Instance) (dev : Device) :
    List Event × Except String Unit :=
  let ip := inst.ip_address
  let (evP, pr) := plan_metrics inst.metrics
  match pr with
  | .error e => (evP, .error e)
  | .ok (table_oids, raw_oids) =>
    let (scErr0, evQ, r) := runQueries inst dev table_oids raw_oids
    let scErr :=
      match r with
      | .ok () => scErr0
      | .error e => some (scErr0.getD ("Fail to collect metrics: " ++ e))
    let scTags := ["snmp_device:" ++ ip]
    let scEv :=
      match scErr with
      | some msg => Event.serviceCheck "snmp.can_check" true scTags (some msg)
      | none => Event.serviceCheck "snmp.can_check" false scTags none
    (evP ++ evQ ++ [scEv], r)

/-! ### Observation helpers over the event trace -/

/-- Whether an event is a service-check emission. -/
def Event.isServiceCheck : Event → Bool
  | .serviceCheck .. => true
  | _ => false

/-- Whether an event is a per-metric sample submission (rate or gauge). -/
def Event.isSubmission : Event → Bool
  | .rate .. => true
  | .gauge .. => true
  | _ => false

/-- Whether an event is purely diagnostic (a log line). -/
def Event.isDiagnostic : Event → Bool
  | .warn _ => true
  | .debug _ => true
  | _ => false

/-- The service-check emissions of a trace, in order. -/
def serviceChecks (evs : List Event) : List Event :=
  evs.filter Event.isServiceCheck

/-- The rate/gauge sample submissions of a trace, in order. -/
def submissions (evs : List Event) : List Event :=
  evs.filter Event.isSubmission

/-- A trace consisting of log lines only. -/
def diagOnly (evs : List Event) : Bool :=
  evs.all Event.isDiagnostic

/-! ### Characterisations used to state the tag-resolution claim -/

/-- The contribution of one index-based tag: `some "key:value"` when the
1-based position lands inside the index tuple (Python semantics,
negative positions included), `none` when the row loop skips it. -/
def idxTagRender (index : RowIndex) (t : String × Int) : Option String :=
  (pyGet index (t.2 - 1)).map fun c => t.1 ++ ":" ++ c.prettyPrint

/-- The contribution of one column-based tag: `none` when the column or
the row is missing or the stored value is an invalid-reply sentinel. -/
def colTagRender (results : TableResults) (index : RowIndex)
    (t : String × String) : Option String :=
  match colLookup results t.2 index with
  | none => none
  | some v => if reply_invalid v then none else some (t.1 ++ ":" ++ v.prettyPrint)

/-- Adding (back) a column value for a given row:
`results[c][index] = v`. -/
def colAdd (results : TableResults) (c : String) (index : RowIndex)
    (v : SnmpValue) : TableResults :=
  dictSet results c (dictSet ((dictGet? results c).getD []) index v)

/-! ### Concrete cycles used by counterexamples and witnesses -/

/-- A device that answers every walk with an empty, error-free reply. -/
def idleDevice : Device := ⟨⟨none, none, []⟩, ⟨none, none, []⟩⟩

/-- An instance whose only metric spec matches none of the known shapes
(no `MIB`, no `OID`). -/
def badSpecInstance : Instance := ⟨"1.2.3.4", [], [emptyMetric]⟩

/-- An instance holding one shapeless spec followed by a well-formed
raw-OID spec. -/
def mixedSpecInstance : Instance :=
  ⟨"1.2.3.4", [], [emptyMetric, { emptyMetric with OID := some "1.3.6.1.2" }]⟩

/-- A device that would answer the raw query of `mixedSpecInstance`. -/
def mixedSpecDevice : Device :=
  ⟨⟨none, none, []⟩,
   ⟨none, none, [[⟨[1, 3, 6, 1, 2, 7], "", "", [], .val "Gauge32" 9⟩]]⟩⟩

/-- The raw-OID example of the spec: configured OID
`1.3.6.1.2.1.2.2.1.10`, no display name. -/
def rawExampleInstance : Instance :=
  ⟨"1.2.3.4", [], [{ emptyMetric with OID := some "1.3.6.1.2.1.2.2.1.10" }]⟩

/-- The matching device reply: one row one index level deeper, holding a
`Gauge32` of 500. -/
def rawExampleDevice : Device :=
  ⟨⟨none, none, []⟩,
   ⟨none, none,
    [[⟨[1, 3, 6, 1, 2, 1, 2, 2, 1, 10, 1], "", "", [], .val "Gauge32" 500⟩]]⟩⟩

/-- An instance whose only metric is a scalar symbol spec. -/
def symbolInstance : Instance :=
  ⟨"1.2.3.4", [],
   [{ emptyMetric with MIB := some "UDP-MIB", symbol := some "udpInDatagrams" }]⟩

/-- A device whose table walk succeeds but returns no row at all for the
queried symbol. -/
def emptyTableDevice : Device := ⟨⟨none, none, []⟩, ⟨none, none, []⟩⟩

/-- A device whose table walk fails with a fatal transport indication. -/
def timeoutDevice : Device :=
  ⟨⟨some "requestTimedOut", none, []⟩, ⟨none, none, []⟩⟩

/-- A device whose raw walk reports a protocol-level error status
(`errorIndication` empty) while rows were streamed. -/
def errorStatusDevice : Device :=
  ⟨⟨none, none, []⟩,
   ⟨none, some "tooBig",
    [[⟨[1, 3, 6, 1, 2, 1, 2, 2, 1, 10, 1], "", "", [], .val "Gauge32" 500⟩]]⟩⟩

/-- A successful single-bind raw reply, for exercising raw-mode storage. -/
def rawStoreReply : WalkReply :=
  ⟨none, none, [[⟨[1, 3, 6], "IF-MIB", "ifInOctets", [], .val "Counter32" 42⟩]]⟩

/-- Resolved rows with exactly one row under the scalar symbol. -/
def oneRowResults : TableResults :=
  [("udpInDatagrams", [([], SnmpValue.val "Counter32" 7)])]

/-- Resolved rows with two rows under the scalar symbol. -/
def twoRowResults : TableResults :=
  [("udpInDatagrams",
    [([SnmpValue.val "Integer" 1], SnmpValue.val "Counter32" 7),
     ([SnmpValue.val "Integer" 2], SnmpValue.val "Counter32" 8)])]

/-! ### Basic trace lemmas -/

theorem serviceChecks_append (a b : List Event) :
    serviceChecks (a ++ b) = serviceChecks a ++ serviceChecks b := by
  simp [serviceChecks, List.filter_append]

theorem submissions_append (a b : List Event) :
    submissions (a ++ b) = submissions a ++ submissions b := by
  simp [submissions, List.filter_append]

theorem diagOnly_append (a b : List Event) :
    diagOnly (a ++ b) = (diagOnly a && diagOnly b) := by
  simp [diagOnly, List.all_append]

theorem serviceChecks_nil_of_diagOnly {evs : List Event}
    (h : diagOnly evs = true) : serviceChecks evs = [] := by
  induction evs with
  | nil => rfl
  | cons e rest ih =>
    simp only [diagOnly, List.all_cons, Bool.and_eq_true] at h
    cases e <;> simp_all [serviceChecks, Event.isServiceCheck,
      Event.isDiagnostic, diagOnly]

theorem submissions_nil_of_diagOnly {evs : List Event}
    (h : diagOnly evs = true) : submissions evs = [] := by
  induction evs with
  | nil => rfl
  | cons e rest ih =>
    simp only [diagOnly, List.all_cons, Bool.and_eq_true] at h
    cases e <;> simp_all [submissions, Event.isSubmission,
      Event.isDiagnostic, diagOnly]

/-! ### Dictionary lemmas -/

theorem dictGet?_dictSet {κ α : Type} [DecidableEq κ]
    (m : List (κ × α)) (k : κ) (v : α) (q : κ) :
    dictGet? (dictSet m k v) q = if k = q then some v else dictGet? m q := by
  induction m with
  | nil => simp [dictSet, dictGet?]
  | cons e rest ih =>
    obtain ⟨a, b⟩ := e
    by_cases hak : a = k
    · subst hak
      by_cases haq : a = q <;> simp [dictSet, dictGet?, haq]
    · simp only [dictSet, if_neg hak]
      by_cases haq : a = q
      · subst haq
        have : ¬(k = a) := fun h => hak h.symm
        simp [dictGet?, this]
      · simp [dictGet?, haq, ih]

theorem dictGet?_dictSet_self {κ α : Type} [DecidableEq κ]
    (m : List (κ × α)) (k : κ) (v : α) :
    dictGet? (dictSet m k v) k = some v := by
  simp [dictGet?_dictSet]

theorem mem_dictSet {κ α : Type} [DecidableEq κ]
    (m : List (κ × α)) (k : κ) (v : α) (p : κ × α)
    (hp : p ∈ dictSet m k v) : p = (k, v) ∨ p ∈ m := by
  induction m with
  | nil => simpa [dictSet] using hp
  | cons e rest ih =>
    obtain ⟨a, b⟩ := e
    by_cases hak : a = k
    · subst hak
      rw [show dictSet ((a, b) :: rest) a v = (a, v) :: rest from by
        simp [dictSet]] at hp
      rcases List.mem_cons.1 hp with h | h
      · exact Or.inl h
      · exact Or.inr (List.mem_cons_of_mem _ h)
    · rw [show dictSet ((a, b) :: rest) k v = (a, b) :: dictSet rest k v from by
        simp [dictSet, hak]] at hp
      rcases List.mem_cons.1 hp with h | h
      · exact Or.inr (by simp [h])
      · rcases ih h with h' | h'
        · exact Or.inl h'
        · exact Or.inr (List.mem_cons_of_mem _ h')

/-! ### Raw-mode storage lemmas -/

theorem foldl_storeRaw_flat (bs : List VarBind) :
    ∀ (acc : ResultSet), (∀ p ∈ acc, ∃ v, p.2 = RSEntry.flat v) →
      ∀ p ∈ bs.foldl storeRaw acc, ∃ v, p.2 = RSEntry.flat v := by
  induction bs with
  | nil => intro acc hacc p hp; exact hacc p hp
  | cons b rest ih =>
    intro acc hacc p hp
    refine ih (storeRaw acc b) ?_ p hp
    intro q hq
    rcases mem_dictSet _ _ _ _ hq with h | h
    · exact ⟨b.value, by simp [h]⟩
    · exact hacc q h

theorem foldl_storeRaw_stable (bs : List VarBind) :
    ∀ (acc : ResultSet) (k : String),
      (∃ v, dictGet? acc k = some (RSEntry.flat v)) →
      ∃ v, dictGet? (bs.foldl storeRaw acc) k = some (RSEntry.flat v) := by
  induction bs with
  | nil => intro acc k h; exact h
  | cons b rest ih =>
    intro acc k h
    refine ih (storeRaw acc b) k ?_
    rcases h with ⟨v, hv⟩
    unfold storeRaw
    rw [dictGet?_dictSet]
    by_cases hk : dotted b.oidTuple = k
    · exact ⟨b.value, by simp [hk]⟩
    · exact ⟨v, by simp [hk, hv]⟩

theorem foldl_storeRaw_key (bs : List VarBind) :
    ∀ (acc : ResultSet) (b : VarBind), b ∈ bs →
      ∃ v, dictGet? (bs.foldl storeRaw acc) (dotted b.oidTuple) =
        some (RSEntry.flat v) := by
  induction bs with
  | nil => intro acc b h; cases h
  | cons hd rest ih =>
    intro acc b hb
    rcases List.mem_cons.1 hb with h | h
    · subst h
      refine foldl_storeRaw_stable rest (storeRaw acc b) _ ?_
      exact ⟨b.value, by unfold storeRaw; exact dictGet?_dictSet_self ..⟩
    · exact ih (storeRaw acc hd) b h

/-! ### Events of planning and walking are diagnostic-only -/

theorem diagOnly_plan (ms : List MetricConf) :
    diagOnly (plan_metrics ms).1 = true := by
  induction ms with
  | nil => rfl
  | cons m ms ih =>
    rcases hp : plan_metrics ms with ⟨evs, r⟩
    rw [hp] at ih
    simp only at ih
    simp only [plan_metrics, hp]
    rcases hM : m.MIB with _ | mv
    · simp only [hM, Option.isSome_none, Bool.false_eq_true, if_false]
      rcases ho : m.OID with _ | ov
      · simp [diagOnly]
      · by_cases he : pyEndsWith ov ".0" <;>
          simp_all [diagOnly, Event.isDiagnostic]
    · simp only [hM, Option.isSome_some, if_true]
      rcases ht : m.table with _ | tv
      · rcases hs : m.symbol with _ | sv
        · simp_all [diagOnly, Event.isDiagnostic]
        · simp_all [diagOnly]
      · simp_all [diagOnly]

theorem diagOnly_check_table_resolved (ip : String) (reply : WalkReply)
    (sc : Option String) :
    diagOnly (check_table_resolved ip reply sc).2.1 = true := by
  unfold check_table_resolved
  rcases walkOutcome ip reply <;> simp [diagOnly, Event.isDiagnostic]

theorem diagOnly_check_table_raw (ip : String) (reply : WalkReply)
    (sc : Option String) :
    diagOnly (check_table_raw ip reply sc).2.1 = true := by
  unfold check_table_raw
  rcases walkOutcome ip reply <;> simp [diagOnly, Event.isDiagnostic]

/-! ### Reporters never emit service checks -/

theorem serviceChecks_submit_metric (name : String) (v : SnmpValue)
    (tags : List String) : serviceChecks (submit_metric name v tags) = [] := by
  unfold submit_metric
  by_cases h1 : reply_invalid v
  · simp [h1, serviceChecks, Event.isServiceCheck]
  · by_cases h2 : v.className ∈ SNMP_COUNTERS
    · simp [h1, h2, serviceChecks, Event.isServiceCheck]
    · by_cases h3 : v.className ∈ SNMP_GAUGES <;>
        simp [h1, h2, h3, serviceChecks, Event.isServiceCheck]

theorem diagOnly_idxTagsLoop (index : RowIndex) (l : List (String × Int)) :
    diagOnly (idxTagsLoop index l).1 = true := by
  induction l with
  | nil => rfl
  | cons t rest ih =>
    obtain ⟨g, p⟩ := t
    rcases hr : idxTagsLoop index rest with ⟨evs, tags⟩
    rw [hr] at ih
    simp only at ih
    simp only [idxTagsLoop, hr]
    rcases pyGet index (p - 1) <;> simp_all [diagOnly, Event.isDiagnostic]

theorem diagOnly_colTagsLoop (index : RowIndex) (results : TableResults)
    (l : List (String × String)) :
    diagOnly (colTagsLoop index results l).1 = true := by
  induction l with
  | nil => rfl
  | cons t rest ih =>
    obtain ⟨g, c⟩ := t
    rcases hr : colTagsLoop index results rest with ⟨evs, tags⟩
    rw [hr] at ih
    simp only at ih
    simp only [colTagsLoop, hr]
    rcases colLookup results c index with _ | v
    · simp_all [diagOnly, Event.isDiagnostic]
    · by_cases hv : reply_invalid v <;> simp_all [diagOnly, Event.isDiagnostic]

theorem diagOnly_get_index_tags (index : RowIndex) (results : TableResults)
    (itags : List (String × Int)) (ctags : List (String × String)) :
    diagOnly (get_index_tags index results itags ctags).1 = true := by
  simp only [get_index_tags]
  rcases h1 : idxTagsLoop index itags with ⟨e1, t1⟩
  rcases h2 : colTagsLoop index results ctags with ⟨e2, t2⟩
  have d1 := diagOnly_idxTagsLoop index itags
  have d2 := diagOnly_colTagsLoop index results ctags
  rw [h1] at d1
  rw [h2] at d2
  simp_all [diagOnly_append]

theorem diagOnly_splitTags (l : List TagConf) :
    diagOnly (splitTags l).1 = true := by
  induction l with
  | nil => rfl
  | cons t rest ih =>
    rcases hr : splitTags rest with ⟨evs, its, cts⟩
    rw [hr] at ih
    simp only at ih
    simp only [splitTags, hr]
    rcases t.index with _ | i
    · rcases t.column with _ | c <;> simp_all [diagOnly, Event.isDiagnostic]
    · simp_all [diagOnly]

theorem serviceChecks_reportRows (tags : List String) (results : TableResults)
    (itags : List (String × Int)) (ctags : List (String × String))
    (name : String) (rows : List (RowIndex × SnmpValue)) :
    serviceChecks (reportRows tags results itags ctags name rows) = [] := by
  induction rows with
  | nil => rfl
  | cons r rest ih =>
    obtain ⟨idx, val⟩ := r
    simp only [reportRows]
    rcases hg : get_index_tags idx results itags ctags with ⟨gEvs, gTags⟩
    have dg := diagOnly_get_index_tags idx results itags ctags
    rw [hg] at dg
    simp only at dg
    simp [serviceChecks_append, serviceChecks_nil_of_diagOnly dg,
      serviceChecks_submit_metric, ih]

theorem serviceChecks_reportSymbols (tags : List String)
    (results : TableResults) (itags : List (String × Int))
    (ctags : List (String × String)) (syms : List String) :
    serviceChecks (reportSymbols tags results itags ctags syms) = [] := by
  induction syms with
  | nil => rfl
  | cons s rest ih =>
    simp [reportSymbols, serviceChecks_append, serviceChecks_reportRows, ih]

theorem serviceChecks_reportTableGo (tags : List String)
    (results : TableResults) (ms : List MetricConf) :
    serviceChecks (reportTableGo tags results ms).1 = [] := by
  induction ms with
  | nil => rfl
  | cons m rest ih =>
    rcases hr : reportTableGo tags results rest with ⟨evs, r⟩
    rw [hr] at ih
    simp only at ih
    simp only [reportTableGo, hr]
    by_cases hT : m.table.isSome
    · simp only [hT, if_true]
      rcases hs : splitTags m.metric_tags with ⟨tagEvs, its, cts⟩
      have ds := diagOnly_splitTags m.metric_tags
      rw [hs] at ds
      simp only at ds
      simp [serviceChecks_append, serviceChecks_nil_of_diagOnly ds,
        serviceChecks_reportSymbols, ih]
    · simp only [hT, Bool.false_eq_true, if_false]
      rcases hsym : m.symbol with _ | name
      · by_cases hO : m.OID.isSome <;>
          simp_all [serviceChecks, Event.isServiceCheck]
      · by_cases hlen : ((dictGet? results name).getD []).length > 1
        · simp_all [serviceChecks, Event.isServiceCheck]
        · rcases hrows : (dictGet? results name).getD [] with _ | ⟨⟨i, v⟩, rs⟩
          · simp_all [serviceChecks]
          · simp_all [serviceChecks_append, serviceChecks_submit_metric]

theorem serviceChecks_report_table_metrics (inst : Instance)
    (results : TableResults) :
    serviceChecks (report_table_metrics inst results).1 = [] := by
  simp [report_table_metrics, serviceChecks_reportTableGo]

theorem serviceChecks_reportRawGo (tags : List String) (results : ResultSet)
    (ms : List MetricConf) :
    serviceChecks (reportRawGo tags results ms).1 = [] := by
  induction ms with
  | nil => rfl
  | cons m rest ih =>
    rcases hr : reportRawGo tags results rest with ⟨evs, r⟩
    rw [hr] at ih
    simp only at ih
    simp only [reportRawGo, hr]
    rcases hO : m.OID with _ | q
    · simpa [hr] using ih
    · rcases hf : firstMatch results q with _ | ⟨k, e⟩
      · simp_all [serviceChecks, Event.isServiceCheck]
      · rcases e with v | rows
        · simp_all [serviceChecks_append, serviceChecks_submit_metric]
        · simp [hf, serviceChecks]

theorem serviceChecks_report_raw_metrics (inst : Instance)
    (results : ResultSet) :
    serviceChecks (report_raw_metrics inst results).1 = [] := by
  simp [report_raw_metrics, serviceChecks_reportRawGo]

theorem serviceChecks_cons_debug (m : String) (evs : List Event) :
    serviceChecks (Event.debug m :: evs) = serviceChecks evs := by
  simp [serviceChecks, Event.isServiceCheck]

theorem serviceChecks_cons_warn (m : String) (evs : List Event) :
    serviceChecks (Event.warn m :: evs) = serviceChecks evs := by
  simp [serviceChecks, Event.isServiceCheck]

theorem submissions_cons_debug (m : String) (evs : List Event) :
    submissions (Event.debug m :: evs) = submissions evs := by
  simp [submissions, Event.isSubmission]

theorem submissions_cons_warn (m : String) (evs : List Event) :
    submissions (Event.warn m :: evs) = submissions evs := by
  simp [submissions, Event.isSubmission]

theorem serviceChecks_nil : serviceChecks [] = [] := rfl

theorem submissions_nil : submissions [] = [] := rfl

theorem serviceChecks_cons_sc (n : String) (c : Bool) (ts : List String)
    (m : Option String) (evs : List Event) :
    serviceChecks (Event.serviceCheck n c ts m :: evs) =
      Event.serviceCheck n c ts m :: serviceChecks evs := by
  simp [serviceChecks, Event.isServiceCheck]

theorem submissions_cons_sc (n : String) (c : Bool) (ts : List String)
    (m : Option String) (evs : List Event) :
    submissions (Event.serviceCheck n c ts m :: evs) = submissions evs := by
  simp [submissions, Event.isSubmission]

/-- Raw reporting over an empty result dictionary: every configured OID
misses, only warnings come out, and no exception is raised. -/
theorem reportRawGo_empty (tags : List String) (ms : List MetricConf) :
    diagOnly (reportRawGo tags [] ms).1 = true ∧
      (reportRawGo tags [] ms).2 = .ok () := by
  induction ms with
  | nil => exact ⟨rfl, rfl⟩
  | cons m rest ih =>
    rcases hr : reportRawGo tags [] rest with ⟨evs, r⟩
    rw [hr] at ih
    simp only at ih
    simp only [reportRawGo, hr]
    rcases hO : m.OID with _ | q
    · exact ⟨by simp [hr, ih.1], by simp [hr, ih.2]⟩
    · have hf : firstMatch ([] : ResultSet) q = none := rfl
      refine ⟨?_, ih.2⟩
      simp [hf, diagOnly, Event.isDiagnostic]
      simpa [diagOnly] using ih.1

theorem tablePhase_events (inst : Instance) (dev : Device)
    (t : List MibVar) :
    serviceChecks (tablePhase inst dev t).2.1 = [] := by
  unfold tablePhase
  by_cases ht : t.isEmpty
  · simp [ht, serviceChecks]
  · simp only [ht, Bool.false_eq_true, if_false]
    rcases hc : check_table_resolved inst.ip_address dev.tableReply none
      with ⟨sc, evW, res⟩
    have dW := diagOnly_check_table_resolved inst.ip_address dev.tableReply none
    rw [hc] at dW
    simp only at dW
    rcases res with e | results
    · simp [serviceChecks_cons_debug, serviceChecks_nil_of_diagOnly dW]
    · rcases hrep : report_table_metrics inst results with ⟨evR, rR⟩
      have hR := serviceChecks_report_table_metrics inst results
      rw [hrep] at hR
      simp only at hR
      simp [hrep, serviceChecks_cons_debug, serviceChecks_append,
        serviceChecks_nil_of_diagOnly dW, hR]

theorem rawPhase_events (inst : Instance) (dev : Device)
    (scErr1 : Option String) (rw : List String) :
    serviceChecks (rawPhase inst dev scErr1 rw).2.1 = [] := by
  unfold rawPhase
  by_cases hrw : rw.isEmpty
  · simp [hrw, serviceChecks]
  · simp only [hrw, Bool.false_eq_true, if_false]
    rcases hc : check_table_raw inst.ip_address dev.rawReply scErr1
      with ⟨sc, evW, res⟩
    have dW := diagOnly_check_table_raw inst.ip_address dev.rawReply scErr1
    rw [hc] at dW
    simp only at dW
    rcases res with e | results
    · simp [serviceChecks_cons_debug, serviceChecks_nil_of_diagOnly dW]
    · rcases hrep : report_raw_metrics inst results with ⟨evR, rR⟩
      have hR := serviceChecks_report_raw_metrics inst results
      rw [hrep] at hR
      simp only at hR
      simp [hrep, serviceChecks_cons_debug, serviceChecks_append,
        serviceChecks_nil_of_diagOnly dW, hR]

theorem runQueries_events (inst : Instance) (dev : Device)
    (t : List MibVar) (rw : List String) :
    serviceChecks (runQueries inst dev t rw).2.1 = [] := by
  unfold runQueries
  rcases h1 : tablePhase inst dev t with ⟨sc1, evs1, r1⟩
  have e1 := tablePhase_events inst dev t
  rw [h1] at e1
  simp only at e1
  rcases r1 with e | u
  · simpa using e1
  · rcases h2 : rawPhase inst dev sc1 rw with ⟨sc2, evs2, r2⟩
    have e2 := rawPhase_events inst dev sc1 rw
    rw [h2] at e2
    simp only at e2
    simp [h2, serviceChecks_append, e1, e2]

/-! ### Claim theorems -/

/-- C6: every value passed to the submission step that is an invalid-reply
sentinel (`noSuchInstance` or `noSuchObject`) triggers no rate or gauge
call at all — the value is dropped with a diagnostic before
classification and is never submitted, in particular never interpreted
as 0. -/
theorem C6_invalid_reply_dropped (name : String) (v : SnmpValue)
    (tags : List String) (h : reply_invalid v = true) :
    submit_metric name v tags = [.warn ("No such Mib available: " ++ name)] ∧
    submissions (submit_metric name v tags) = [] := by
  have he : submit_metric name v tags =
      [.warn ("No such Mib available: " ++ name)] := by
    unfold submit_metric
    simp [h]
  exact ⟨he, by simp [he, submissions, Event.isSubmission]⟩

/-- Witness for C6 at the concrete sentinel `noSuchInstance`. -/
theorem C6_witness :
    reply_invalid SnmpValue.noSuchInstance = true ∧
    submit_metric "ifInOctets" SnmpValue.noSuchInstance [] =
      [.warn ("No such Mib available: " ++ "ifInOctets")] :=
  ⟨by decide,
   (C6_invalid_reply_dropped "ifInOctets" SnmpValue.noSuchInstance []
      (by decide)).1⟩

/-- C7: classification of a wire-type class name is total and exclusive —
every class name maps to exactly one of counter/gauge/unsupported,
decided by exact name equality against the fixed `SNMP_COUNTERS` and
`SNMP_GAUGES` lists (which are disjoint); a counter-classified value is
submitted as a rate sample, a gauge-classified one as a gauge sample,
and an unrecognized type is warned about and dropped. -/
theorem C7_classification :
    (∀ cls, ¬(cls ∈ SNMP_COUNTERS ∧ cls ∈ SNMP_GAUGES)) ∧
    (∀ cls,
      (classify cls = .counter ↔ cls ∈ SNMP_COUNTERS) ∧
      (classify cls = .gauge ↔ cls ∉ SNMP_COUNTERS ∧ cls ∈ SNMP_GAUGES) ∧
      (classify cls = .unsupported ↔
        cls ∉ SNMP_COUNTERS ∧ cls ∉ SNMP_GAUGES)) ∧
    (∀ name cls n tags,
      submit_metric name (.val cls n) tags =
        match classify cls with
        | .counter => [.rate (normalize name "snmp") n tags]
        | .gauge => [.gauge (normalize name "snmp") n tags]
        | .unsupported => [.warn ("Unsupported metric type " ++ cls)]) := by
  refine ⟨?_, ?_, ?_⟩
  · intro cls ⟨h1, h2⟩
    simp [SNMP_COUNTERS] at h1
    simp [SNMP_GAUGES] at h2
    rcases h1 with h | h | h <;> rcases h2 with h' | h' | h' <;> simp_all
  · intro cls
    by_cases hc : cls ∈ SNMP_COUNTERS
    · simp [classify, List.elem_iff.2 hc, hc]
    · by_cases hg : cls ∈ SNMP_GAUGES
      · have hc' : SNMP_COUNTERS.contains cls = false := by
          simpa using fun h => hc (List.elem_iff.1 h)
        simp [classify, hc', List.elem_iff.2 hg, hc, hg]
      · have hc' : SNMP_COUNTERS.contains cls = false := by
          simpa using fun h => hc (List.elem_iff.1 h)
        have hg' : SNMP_GAUGES.contains cls = false := by
          simpa using fun h => hg (List.elem_iff.1 h)
        simp [classify, hc', hg', hc, hg]
  · intro name cls n tags
    unfold submit_metric classify
    simp only [reply_invalid, Bool.false_eq_true, if_false]
    by_cases hc : cls ∈ SNMP_COUNTERS
    · simp [SnmpValue.className, SnmpValue.intValue, hc]
    · by_cases hg : cls ∈ SNMP_GAUGES <;>
        simp [SnmpValue.className, SnmpValue.intValue, hc, hg]

/-- Witness for C7: the 64-bit gauge and counter classes are kept apart,
and a counter submission goes out as a rate sample. -/
theorem C7_witness :
    ¬("CounterBasedGauge64" ∈ SNMP_COUNTERS ∧
      "CounterBasedGauge64" ∈ SNMP_GAUGES) ∧
    (classify "Counter64" = .counter ↔ "Counter64" ∈ SNMP_COUNTERS) ∧
    submit_metric "ifInOctets" (.val "Counter64" 5) [] =
      [.rate (normalize "ifInOctets" "snmp") 5 []] :=
  ⟨C7_classification.1 "CounterBasedGauge64",
   (C7_classification.2.1 "Counter64").1,
   by
    have h := C7_classification.2.2 "ifInOctets" "Counter64" 5 []
    simpa using h⟩

/-- C2: when the table walk returns a fatal transport-level indication,
the walk raises an error whose message names the device, the cycle emits
exactly one service check — CRITICAL, carrying that message — and no
rate/gauge submission happens in the cycle. -/
theorem C2_fatal_walk (inst : Instance) (dev : Device) (e : String)
    (evP : List Event) (t : List MibVar) (rw0 : List String)
    (hplan : plan_metrics inst.metrics = (evP, .ok (t, rw0)))
    (ht : t ≠ [])
    (hind : dev.tableReply.errorIndication = some e) :
    (check_table_resolved inst.ip_address dev.tableReply none).2.2 =
      .error (e ++ " for instance " ++ inst.ip_address) ∧
    serviceChecks (check inst dev).1 =
      [.serviceCheck "snmp.can_check" true ["snmp_device:" ++ inst.ip_address]
        (some (e ++ " for instance " ++ inst.ip_address))] ∧
    submissions (check inst dev).1 = [] ∧
    (check inst dev).2 = .error (e ++ " for instance " ++ inst.ip_address) := by
  have hw : walkOutcome inst.ip_address dev.tableReply =
      .fatal (e ++ " for instance " ++ inst.ip_address) := by
    simp [walkOutcome, hind]
  have hctr : check_table_resolved inst.ip_address dev.tableReply none =
      (some (e ++ " for instance " ++ inst.ip_address), [],
       .error (e ++ " for instance " ++ inst.ip_address)) := by
    unfold check_table_resolved
    rw [hw]
  have htE : t.isEmpty = false := by
    cases t with
    | nil => exact absurd rfl ht
    | cons a l => rfl
  have htp : tablePhase inst dev t =
      (some (e ++ " for instance " ++ inst.ip_address),
       [Event.debug ("Querying device " ++ inst.ip_address ++ " for " ++
          toString t.length ++ " oids")],
       .error (e ++ " for instance " ++ inst.ip_address)) := by
    unfold tablePhase
    rw [htE]
    simp [hctr]
  have hq : runQueries inst dev t rw0 =
      (some (e ++ " for instance " ++ inst.ip_address),
       [Event.debug ("Querying device " ++ inst.ip_address ++ " for " ++
          toString t.length ++ " oids")],
       .error (e ++ " for instance " ++ inst.ip_address)) := by
    unfold runQueries
    rw [htp]
  have hcheck : check inst dev =
      (evP ++ [Event.debug ("Querying device " ++ inst.ip_address ++ " for " ++
          toString t.length ++ " oids")] ++
        [.serviceCheck "snmp.can_check" true ["snmp_device:" ++ inst.ip_address]
          (some (e ++ " for instance " ++ inst.ip_address))],
       .error (e ++ " for instance " ++ inst.ip_address)) := by
    unfold check
    rw [hplan]
    simp only
    rw [hq]
    all_goals rfl
  have dP := diagOnly_plan inst.metrics
  rw [hplan] at dP
  simp only at dP
  refine ⟨by rw [hctr], ?_, ?_, by rw [hcheck]⟩
  · rw [hcheck]
    simp [serviceChecks_append, serviceChecks_nil_of_diagOnly dP,
      serviceChecks_cons_debug, serviceChecks_cons_sc, serviceChecks_nil]
  · rw [hcheck]
    simp [submissions_append, submissions_nil_of_diagOnly dP,
      submissions_cons_debug, submissions_cons_sc, submissions_nil]

/-- Witness for C2: a scalar-symbol instance against a device whose walk
times out. -/
theorem C2_witness :
    timeoutDevice.tableReply.errorIndication = some "requestTimedOut" ∧
    serviceChecks (check symbolInstance timeoutDevice).1 =
      [.serviceCheck "snmp.can_check" true ["snmp_device:" ++ "1.2.3.4"]
        (some ("requestTimedOut" ++ " for instance " ++ "1.2.3.4"))] ∧
    submissions (check symbolInstance timeoutDevice).1 = [] :=
  ⟨rfl,
   (C2_fatal_walk symbolInstance timeoutDevice "requestTimedOut" []
      [("UDP-MIB", "udpInDatagrams")] [] rfl (by decide) rfl).2.1,
   (C2_fatal_walk symbolInstance timeoutDevice "requestTimedOut" []
      [("UDP-MIB", "udpInDatagrams")] [] rfl (by decide) rfl).2.2.1⟩

/-- C1 counterexample: a spec matching no known shape makes the planning
loop raise BEFORE the `try`/`finally` of `check`, so the cycle ends with
no service-health signal at all — refuting that exactly one signal is
emitted on every exit path, planning included. -/
theorem C1_counterexample :
    serviceChecks (check badSpecInstance idleDevice).1 = [] ∧
    (check badSpecInstance idleDevice).2 =
      .error ("Unsupported metric in config file: " ++ emptyMetric.render) := by
  exact ⟨rfl, rfl⟩

/-- C3 counterexample: with a shapeless spec followed by a well-formed
raw-OID spec, planning aborts at the shapeless spec: the second spec is
never queried or submitted (even though the device holds matching data)
and the run is aborted with no service check — refuting that the check
merely skips the offending spec and continues. -/
theorem C3_counterexample :
    (check mixedSpecInstance mixedSpecDevice).2 =
      .error ("Unsupported metric in config file: " ++ emptyMetric.render) ∧
    submissions (check mixedSpecInstance mixedSpecDevice).1 = [] ∧
    serviceChecks (check mixedSpecInstance mixedSpecDevice).1 = [] ∧
    firstMatch [("1.3.6.1.2.7", RSEntry.flat (.val "Gauge32" 9))] "1.3.6.1.2" =
      some ("1.3.6.1.2.7", RSEntry.flat (.val "Gauge32" 9)) := by
  exact ⟨rfl, rfl, rfl, rfl⟩

/-- C4 counterexample: a raw walk answered with a non-fatal protocol
error status (empty `errorIndication`) completes the cycle without an
exception, yet the single service check of the cycle is CRITICAL with
the protocol message — refuting that the signal is still OK and that
protocol warnings are never surfaced as a check failure. -/
theorem C4_counterexample :
    errorStatusDevice.rawReply.errorIndication = none ∧
    errorStatusDevice.rawReply.errorStatus = some "tooBig" ∧
    (check rawExampleInstance errorStatusDevice).2 = .ok () ∧
    serviceChecks (check rawExampleInstance errorStatusDevice).1 =
      [.serviceCheck "snmp.can_check" true ["snmp_device:" ++ "1.2.3.4"]
        (some ("tooBig" ++ " for instance " ++ "1.2.3.4"))] := by
  exact ⟨rfl, rfl, rfl, rfl⟩

/-- C5 at the failing input (a scalar symbol with zero collected rows),
plus the two adjacent cardinalities: one row submits exactly one sample,
two rows only warn and skip.  With zero rows the source indexes
`result[0]` and raises `IndexError`, aborting the cycle and emitting
CRITICAL — the claim says the cycle continues without error. -/
theorem C5_zero_rows_crash :
    (check symbolInstance emptyTableDevice).2 =
      .error "list index out of range" ∧
    submissions (check symbolInstance emptyTableDevice).1 = [] ∧
    serviceChecks (check symbolInstance emptyTableDevice).1 =
      [.serviceCheck "snmp.can_check" true ["snmp_device:" ++ "1.2.3.4"]
        (some ("Fail to collect metrics: " ++ "list index out of range"))] ∧
    (reportTableGo ["snmp_device:1.2.3.4"] oneRowResults
        symbolInstance.metrics).1 =
      [.rate ("snmp" ++ "." ++ "udpInDatagrams") 7 ["snmp_device:1.2.3.4"]] ∧
    (reportTableGo ["snmp_device:1.2.3.4"] oneRowResults
        symbolInstance.metrics).2 = .ok () ∧
    (reportTableGo ["snmp_device:1.2.3.4"] twoRowResults
        symbolInstance.metrics).1 =
      [.warn "Several rows corresponding while the metric is supposed to be a scalar"] ∧
    (reportTableGo ["snmp_device:1.2.3.4"] twoRowResults
        symbolInstance.metrics).2 = .ok () := by
  exact ⟨rfl, rfl, rfl, rfl, rfl, rfl, rfl⟩

/-- C10 counterexample: in raw mode the value is stored DIRECTLY under
the dotted-OID string (`results[matching] = value`, a one-level entry),
not as a nested mapping from a sentinel row index to the value. -/
theorem C10_counterexample :
    (check_table_raw "1.2.3.4" rawStoreReply none).2.2 =
      .ok [("1.3.6", RSEntry.flat (.val "Counter32" 42))] ∧
    dictGet? [("1.3.6", RSEntry.flat (SnmpValue.val "Counter32" 42))] "1.3.6" =
      some (RSEntry.flat (.val "Counter32" 42)) ∧
    ∀ rows,
      dictGet? [("1.3.6", RSEntry.flat (SnmpValue.val "Counter32" 42))] "1.3.6" ≠
        some (RSEntry.nested rows) := by
  refine ⟨rfl, rfl, ?_⟩
  intro rows h
  simp [dictGet?] at h

/-- C4 amended: on a non-fatal protocol error status (empty
`errorIndication`) the warning is logged and walking stops early, but
the walk returns an EMPTY result set (streamed rows are discarded, not
returned), and although the cycle continues without an exception, the
captured protocol message IS surfaced by the finalizer as the single,
CRITICAL service check of the cycle. -/
theorem C4_amended (inst : Instance) (dev : Device) (st : String)
    (evP : List Event) (rw0 : List String)
    (hplan : plan_metrics inst.metrics = (evP, .ok ([], rw0)))
    (hrw : rw0 ≠ [])
    (hind : dev.rawReply.errorIndication = none)
    (hst : dev.rawReply.errorStatus = some st) :
    (check_table_raw inst.ip_address dev.rawReply none).2.2 = .ok [] ∧
    (check inst dev).2 = .ok () ∧
    Event.warn (st ++ " for instance " ++ inst.ip_address) ∈
      (check inst dev).1 ∧
    serviceChecks (check inst dev).1 =
      [.serviceCheck "snmp.can_check" true ["snmp_device:" ++ inst.ip_address]
        (some (st ++ " for instance " ++ inst.ip_address))] ∧
    submissions (check inst dev).1 = [] := by
  have hw : walkOutcome inst.ip_address dev.rawReply =
      .stopEarly (st ++ " for instance " ++ inst.ip_address) := by
    simp [walkOutcome, hind, hst]
  have hctr : check_table_raw inst.ip_address dev.rawReply none =
      (some (st ++ " for instance " ++ inst.ip_address),
       [.warn (st ++ " for instance " ++ inst.ip_address)], .ok []) := by
    unfold check_table_raw
    rw [hw]
  have hrwE : rw0.isEmpty = false := by
    cases rw0 with
    | nil => exact absurd rfl hrw
    | cons a l => rfl
  rcases hrep : report_raw_metrics inst [] with ⟨evR, rR⟩
  have hE := reportRawGo_empty
    (inst.tags ++ ["snmp_device:" ++ inst.ip_address]) inst.metrics
  rw [show reportRawGo (inst.tags ++ ["snmp_device:" ++ inst.ip_address]) []
        inst.metrics = (evR, rR) from hrep] at hE
  simp only at hE
  obtain ⟨dE, okE⟩ := hE
  subst okE
  have hraw : rawPhase inst dev none rw0 =
      (some (st ++ " for instance " ++ inst.ip_address),
       Event.debug ("Querying device " ++ inst.ip_address ++ " for " ++
          toString rw0.length ++ " oids") ::
         Event.warn (st ++ " for instance " ++ inst.ip_address) :: evR,
       .ok ()) := by
    unfold rawPhase
    rw [hrwE]
    simp only [Bool.false_eq_true, if_false]
    rw [hctr]
    simp only
    rw [show report_raw_metrics inst [] = (evR, Except.ok ()) from hrep]
    all_goals rfl
  have hq : runQueries inst dev [] rw0 =
      (some (st ++ " for instance " ++ inst.ip_address),
       Event.debug ("Querying device " ++ inst.ip_address ++ " for " ++
          toString rw0.length ++ " oids") ::
         Event.warn (st ++ " for instance " ++ inst.ip_address) :: evR,
       .ok ()) := by
    unfold runQueries
    have htp : tablePhase inst dev [] = (none, [], .ok ()) := rfl
    rw [htp]
    simp only
    rw [hraw]
    all_goals rfl
  have hcheck : check inst dev =
      (evP ++ (Event.debug ("Querying device " ++ inst.ip_address ++ " for " ++
          toString rw0.length ++ " oids") ::
         Event.warn (st ++ " for instance " ++ inst.ip_address) :: evR) ++
        [.serviceCheck "snmp.can_check" true
          ["snmp_device:" ++ inst.ip_address]
          (some (st ++ " for instance " ++ inst.ip_address))],
       .ok ()) := by
    unfold check
    rw [hplan]
    simp only
    rw [hq]
  have dP := diagOnly_plan inst.metrics
  rw [hplan] at dP
  simp only at dP
  refine ⟨by rw [hctr], by rw [hcheck], ?_, ?_, ?_⟩
  · rw [hcheck]
    simp
  · rw [hcheck]
    simp [serviceChecks_append, serviceChecks_nil_of_diagOnly dP,
      serviceChecks_cons_debug, serviceChecks_cons_warn,
      serviceChecks_nil_of_diagOnly dE, serviceChecks_cons_sc,
      serviceChecks_nil]
  · rw [hcheck]
    simp [submissions_append, submissions_nil_of_diagOnly dP,
      submissions_cons_debug, submissions_cons_warn,
      submissions_nil_of_diagOnly dE, submissions_cons_sc, submissions_nil]

/-- Witness for C4 at the concrete error-status device. -/
theorem C4_witness :
    errorStatusDevice.rawReply.errorStatus = some "tooBig" ∧
    (check rawExampleInstance errorStatusDevice).2 = .ok () ∧
    serviceChecks (check rawExampleInstance errorStatusDevice).1 =
      [.serviceCheck "snmp.can_check" true ["snmp_device:" ++ "1.2.3.4"]
        (some ("tooBig" ++ " for instance " ++ "1.2.3.4"))] :=
  ⟨rfl,
   (C4_amended rawExampleInstance errorStatusDevice "tooBig" []
      ["1.3.6.1.2.1.2.2.1.10"] rfl (by decide) rfl rfl).2.1,
   (C4_amended rawExampleInstance errorStatusDevice "tooBig" []
      ["1.3.6.1.2.1.2.2.1.10"] rfl (by decide) rfl rfl).2.2.2.1⟩

/-- C1 amended: on every cycle whose PLANNING succeeds, exactly one
service-health signal is emitted, as the very last step of the cycle:
CRITICAL carrying the captured error message when any error message was
captured during walking or reporting (fatal walk indication, protocol
error status, or reporting exception), OK otherwise; in particular every
failing exit of the walking/reporting phases ends CRITICAL.  An
exception raised during planning, however, propagates before the
`try`/`finally` and emits no signal (see the counterexample). -/
theorem C1_amended (inst : Instance) (dev : Device) (evP : List Event)
    (oids : List MibVar × List String)
    (hplan : plan_metrics inst.metrics = (evP, .ok oids)) :
    ∃ (crit : Bool) (msg : Option String),
      serviceChecks (check inst dev).1 =
        [.serviceCheck "snmp.can_check" crit
          ["snmp_device:" ++ inst.ip_address] msg] ∧
      (check inst dev).1.getLast? =
        some (.serviceCheck "snmp.can_check" crit
          ["snmp_device:" ++ inst.ip_address] msg) ∧
      (crit = true ↔ msg.isSome = true) ∧
      (∀ e, (check inst dev).2 = .error e → crit = true) := by
  obtain ⟨t, rw0⟩ := oids
  rcases hq : runQueries inst dev t rw0 with ⟨sc0, evQ, r⟩
  have hSC := runQueries_events inst dev t rw0
  rw [hq] at hSC
  simp only at hSC
  have dP := diagOnly_plan inst.metrics
  rw [hplan] at dP
  simp only at dP
  have hscP := serviceChecks_nil_of_diagOnly dP
  cases r with
  | ok u =>
    cases u
    cases sc0 with
    | none =>
      have hcheck : check inst dev =
          (evP ++ evQ ++ [.serviceCheck "snmp.can_check" false
            ["snmp_device:" ++ inst.ip_address] none], .ok ()) := by
        unfold check
        rw [hplan]
        simp only
        rw [hq]
      refine ⟨false, none, ?_, ?_, by simp, ?_⟩
      · rw [hcheck]
        simp [serviceChecks_append, hscP, hSC, serviceChecks_cons_sc,
          serviceChecks_nil]
      · rw [hcheck]
        simp
      · rw [hcheck]
        intro e he
        simp at he
    | some m =>
      have hcheck : check inst dev =
          (evP ++ evQ ++ [.serviceCheck "snmp.can_check" true
            ["snmp_device:" ++ inst.ip_address] (some m)], .ok ()) := by
        unfold check
        rw [hplan]
        simp only
        rw [hq]
      refine ⟨true, some m, ?_, ?_, by simp, ?_⟩
      · rw [hcheck]
        simp [serviceChecks_append, hscP, hSC, serviceChecks_cons_sc,
          serviceChecks_nil]
      · rw [hcheck]
        simp
      · intro e he
        rfl
  | error e =>
    cases sc0 with
    | none =>
      have hcheck : check inst dev =
          (evP ++ evQ ++ [.serviceCheck "snmp.can_check" true
            ["snmp_device:" ++ inst.ip_address]
            (some ("Fail to collect metrics: " ++ e))], .error e) := by
        unfold check
        rw [hplan]
        simp only
        rw [hq]
        all_goals rfl
      refine ⟨true, some ("Fail to collect metrics: " ++ e), ?_, ?_,
        by simp, fun _ _ => rfl⟩
      · rw [hcheck]
        simp [serviceChecks_append, hscP, hSC, serviceChecks_cons_sc,
          serviceChecks_nil]
      · rw [hcheck]
        simp
    | some m =>
      have hcheck : check inst dev =
          (evP ++ evQ ++ [.serviceCheck "snmp.can_check" true
            ["snmp_device:" ++ inst.ip_address] (some m)], .error e) := by
        unfold check
        rw [hplan]
        simp only
        rw [hq]
        all_goals rfl
      refine ⟨true, some m, ?_, ?_, by simp, fun _ _ => rfl⟩
      · rw [hcheck]
        simp [serviceChecks_append, hscP, hSC, serviceChecks_cons_sc,
          serviceChecks_nil]
      · rw [hcheck]
        simp

/-- Witness for C1 amended: the raw-OID example cycle emits exactly one
service check, as its final event. -/
theorem C1_witness :
    ∃ (crit : Bool) (msg : Option String),
      serviceChecks (check rawExampleInstance rawExampleDevice).1 =
        [.serviceCheck "snmp.can_check" crit
          ["snmp_device:" ++ rawExampleInstance.ip_address] msg] ∧
      (check rawExampleInstance rawExampleDevice).1.getLast? =
        some (.serviceCheck "snmp.can_check" crit
          ["snmp_device:" ++ rawExampleInstance.ip_address] msg) ∧
      (crit = true ↔ msg.isSome = true) ∧
      (∀ e, (check rawExampleInstance rawExampleDevice).2 = .error e →
        crit = true) :=
  C1_amended rawExampleInstance rawExampleDevice []
    ([], ["1.3.6.1.2.1.2.2.1.10"]) rfl

/-- C3 amended: a spec matching none of the known shapes raises a
configuration error naming the offending spec and ABORTS planning — the
following specs of the cycle are not processed and the error propagates
(no mere skip); a malformed MIB reference (neither `table` nor `symbol`)
only produces a warning, is omitted from the table query set, and the
remaining specs are processed normally. -/
theorem C3_amended :
    (∀ (pre : List MetricConf) (m : MetricConf) (ms : List MetricConf),
      (∀ m2 ∈ pre, m2.MIB.isSome = true ∨ m2.OID.isSome = true) →
      m.MIB = none → m.OID = none →
      (plan_metrics (pre ++ m :: ms)).2 =
        .error ("Unsupported metric in config file: " ++ m.render)) ∧
    (∀ (m : MetricConf) (ms : List MetricConf),
      m.MIB.isSome = true → m.table = none → m.symbol = none →
      plan_metrics (m :: ms) =
        (.warn ("Can not generate MIB object for variable : " ++ m.render)
           :: (plan_metrics ms).1,
         (plan_metrics ms).2)) := by
  constructor
  · intro pre
    induction pre with
    | nil =>
      intro m ms _ hM hO
      simp [plan_metrics, hM, hO]
    | cons p pre ih =>
      intro m ms hpre hM hO
      have hp := hpre p (List.mem_cons_self p pre)
      have htail : ∀ m2 ∈ pre, m2.MIB.isSome = true ∨ m2.OID.isSome = true :=
        fun m2 hm2 => hpre m2 (List.mem_cons_of_mem p hm2)
      have hrec := ih m ms htail hM hO
      rcases hq : plan_metrics (pre ++ m :: ms) with ⟨evs, r⟩
      rw [hq] at hrec
      simp only at hrec
      subst hrec
      show (plan_metrics (p :: (pre ++ m :: ms))).2 = _
      rcases hpM : p.MIB with _ | mv
      · rcases hpO : p.OID with _ | ov
        · rcases hp with h | h
          · rw [hpM] at h
            simp at h
          · rw [hpO] at h
            simp at h
        · by_cases he : pyEndsWith ov ".0" <;>
            simp [plan_metrics, hpM, hpO, hq, he, Except.map]
      · rcases hpt : p.table with _ | tv
        · rcases hps : p.symbol with _ | sv
          · simp [plan_metrics, hpM, hpt, hps, hq]
          · simp [plan_metrics, hpM, hpt, hps, hq, Except.map]
        · simp [plan_metrics, hpM, hpt, hq, Except.map]
  · intro m ms hM ht hs
    rcases hq : plan_metrics ms with ⟨evs, r⟩
    simp [plan_metrics, hM, ht, hs, hq]

/-- Witness for C3 amended at concrete specs: the shapeless spec aborts
planning with the identifying message; the malformed MIB spec only
produces a warning. -/
theorem C3_witness :
    (plan_metrics ([] ++ emptyMetric :: [])).2 =
      .error ("Unsupported metric in config file: " ++ emptyMetric.render) ∧
    plan_metrics (malformedMibMetric :: []) =
      (.warn ("Can not generate MIB object for variable : " ++
          malformedMibMetric.render) :: (plan_metrics []).1,
       (plan_metrics []).2) :=
  ⟨C3_amended.1 [] emptyMetric [] (by simp) rfl rfl,
   C3_amended.2 malformedMibMetric [] rfl rfl rfl⟩

/-- C10 amended: a successful raw-mode walk stores every returned
`(oid, value)` pair as a ONE-level entry — the value sits directly under
the dotted-OID string, with no row-index layer at all. -/
theorem C10_amended (ip : String) (reply : WalkReply) (scErr : Option String)
    (hind : reply.errorIndication = none) (hst : reply.errorStatus = none) :
    ∃ rs, (check_table_raw ip reply scErr).2.2 = .ok rs ∧
      (∀ p ∈ rs, ∃ v, p.2 = RSEntry.flat v) ∧
      (∀ row ∈ reply.varBinds, ∀ b ∈ row,
        ∃ v, dictGet? rs (dotted b.oidTuple) = some (RSEntry.flat v)) := by
  have hw : walkOutcome ip reply = .proceed := by
    simp [walkOutcome, hind, hst]
  refine ⟨reply.varBinds.flatten.foldl storeRaw [], ?_, ?_, ?_⟩
  · unfold check_table_raw
    rw [hw]
  · exact foldl_storeRaw_flat _ [] (by simp)
  · intro row hrow b hb
    exact foldl_storeRaw_key _ [] b (List.mem_flatten.2 ⟨row, hrow, hb⟩)

/-- Witness for C10 amended at the concrete single-bind raw reply. -/
theorem C10_witness :
    ∃ rs, (check_table_raw "1.2.3.4" rawStoreReply none).2.2 = .ok rs ∧
      (∀ p ∈ rs, ∃ v, p.2 = RSEntry.flat v) ∧
      (∀ row ∈ rawStoreReply.varBinds, ∀ b ∈ row,
        ∃ v, dictGet? rs (dotted b.oidTuple) = some (RSEntry.flat v)) :=
  C10_amended "1.2.3.4" rawStoreReply none rfl rfl

/-! ### Tag-resolution characterisation lemmas -/

theorem idxTagsLoop_snd (index : RowIndex) (l : List (String × Int)) :
    (idxTagsLoop index l).2 = l.filterMap (idxTagRender index) := by
  induction l with
  | nil => rfl
  | cons t rest ih =>
    obtain ⟨g, p⟩ := t
    rcases hr : idxTagsLoop index rest with ⟨evs, tags⟩
    rw [hr] at ih
    simp only at ih
    simp only [idxTagsLoop, hr, List.filterMap_cons]
    rcases hpg : pyGet index (p - 1) with _ | c <;>
      simp [idxTagRender, hpg, ih]

theorem colTagsLoop_snd (index : RowIndex) (results : TableResults)
    (l : List (String × String)) :
    (colTagsLoop index results l).2 =
      l.filterMap (colTagRender results index) := by
  induction l with
  | nil => rfl
  | cons t rest ih =>
    obtain ⟨g, c⟩ := t
    rcases hr : colTagsLoop index results rest with ⟨evs, tags⟩
    rw [hr] at ih
    simp only at ih
    simp only [colTagsLoop, hr, List.filterMap_cons]
    rcases hcl : colLookup results c index with _ | v
    · simp [colTagRender, hcl, ih]
    · by_cases hv : reply_invalid v <;> simp [colTagRender, hcl, hv, ih]

/-- C8: tag resolution is best-effort and per-tag: the resulting tag
list is exactly the concatenation of the per-tag renderings (so skipping
one tag never suppresses another); an index tag at 1-based position `p`
within the tuple yields `"key:value"` with the textual rendering of
`i[p-1]` and is simply absent for `p` beyond the tuple; a column tag is
omitted when the column or row is missing or holds an invalid-reply
sentinel, and reappears once a valid value is added back. -/
theorem C8_tag_resolution (index : RowIndex) (results : TableResults)
    (itags : List (String × Int)) (ctags : List (String × String)) :
    (get_index_tags index results itags ctags).2 =
      itags.filterMap (idxTagRender index) ++
        ctags.filterMap (colTagRender results index) ∧
    (∀ g p, 1 ≤ p → p ≤ (index.length : Int) →
      ∃ c, index.get? (p - 1).toNat = some c ∧
        idxTagRender index (g, p) = some (g ++ ":" ++ c.prettyPrint)) ∧
    (∀ g p, (index.length : Int) < p → idxTagRender index (g, p) = none) ∧
    (∀ g p, (g, p) ∈ itags → 1 ≤ p → p ≤ (index.length : Int) →
      ∃ c, index.get? (p - 1).toNat = some c ∧
        (g ++ ":" ++ c.prettyPrint) ∈
          (get_index_tags index results itags ctags).2) ∧
    (∀ g c, colLookup results c index = none →
      colTagRender results index (g, c) = none) ∧
    (∀ g c v, colLookup results c index = some v → reply_invalid v = true →
      colTagRender results index (g, c) = none) ∧
    (∀ g c v, colLookup results c index = some v → reply_invalid v = false →
      colTagRender results index (g, c) = some (g ++ ":" ++ v.prettyPrint)) ∧
    (∀ g c v, reply_invalid v = false →
      colTagRender (colAdd results c index v) index (g, c) =
        some (g ++ ":" ++ v.prettyPrint)) ∧
    (∀ g c v, (g, c) ∈ ctags → reply_invalid v = false →
      (g ++ ":" ++ v.prettyPrint) ∈
        (get_index_tags index (colAdd results c index v) itags ctags).2) := by
  have hchar : ∀ (res : TableResults),
      (get_index_tags index res itags ctags).2 =
        itags.filterMap (idxTagRender index) ++
          ctags.filterMap (colTagRender res index) := by
    intro res
    simp only [get_index_tags]
    rcases h1 : idxTagsLoop index itags with ⟨e1, t1⟩
    rcases h2 : colTagsLoop index res ctags with ⟨e2, t2⟩
    have s1 := idxTagsLoop_snd index itags
    have s2 := colTagsLoop_snd index res ctags
    rw [h1] at s1
    rw [h2] at s2
    simp_all
  have hidx : ∀ (g : String) (p : Int), 1 ≤ p → p ≤ (index.length : Int) →
      ∃ c, index.get? (p - 1).toNat = some c ∧
        idxTagRender index (g, p) = some (g ++ ":" ++ c.prettyPrint) := by
    intro g p h1 h2
    have hlt : (p - 1).toNat < index.length := by omega
    refine ⟨index.get ⟨(p - 1).toNat, hlt⟩, List.get?_eq_get hlt, ?_⟩
    have h0 : (0 : Int) ≤ p - 1 := by omega
    have hg : pyGet index (p - 1) =
        some (index.get ⟨(p - 1).toNat, hlt⟩) := by
      unfold pyGet
      rw [if_pos h0]
      exact List.get?_eq_get hlt
    unfold idxTagRender
    rw [hg]
    rfl
  have hcolAdd : ∀ (g c : String) (v : SnmpValue), reply_invalid v = false →
      colTagRender (colAdd results c index v) index (g, c) =
        some (g ++ ":" ++ v.prettyPrint) := by
    intro g c v hv
    have hl : colLookup (colAdd results c index v) c index = some v := by
      simp [colLookup, colAdd, dictGet?_dictSet_self]
    simp [colTagRender, hl, hv]
  refine ⟨hchar results, hidx, ?_, ?_, ?_, ?_, ?_, hcolAdd, ?_⟩
  · intro g p hgt
    have h0 : (0 : Int) ≤ p - 1 := by omega
    have hge : index.length ≤ (p - 1).toNat := by omega
    unfold idxTagRender pyGet
    rw [if_pos h0, List.get?_len_le hge]
    rfl
  · intro g p hmem h1 h2
    obtain ⟨c, hc, hr⟩ := hidx g p h1 h2
    refine ⟨c, hc, ?_⟩
    rw [hchar results]
    exact List.mem_append_left _
      (List.mem_filterMap.2 ⟨(g, p), hmem, hr⟩)
  · intro g c hl
    simp [colTagRender, hl]
  · intro g c v hl hv
    simp [colTagRender, hl, hv]
  · intro g c v hl hv
    simp [colTagRender, hl, hv]
  · intro g c v hmem hv
    rw [hchar (colAdd results c index v)]
    exact List.mem_append_right _
      (List.mem_filterMap.2 ⟨(g, c), hmem, hcolAdd g c v hv⟩)

/-- Witness for C8: a two-component row index with one index tag and one
column tag that has just been given a valid value. -/
theorem C8_witness :
    (1 : Int) ≤ 2 ∧
    (2 : Int) ≤ (([SnmpValue.val "Integer" 4,
        SnmpValue.val "Integer" 6] : RowIndex).length : Int) ∧
    reply_invalid (SnmpValue.val "DisplayString" 3) = false ∧
    (∃ c, ([SnmpValue.val "Integer" 4,
        SnmpValue.val "Integer" 6] : RowIndex).get? ((2 : Int) - 1).toNat =
          some c ∧
      idxTagRender [SnmpValue.val "Integer" 4, SnmpValue.val "Integer" 6]
          ("ipVersion", 2) = some ("ipVersion" ++ ":" ++ c.prettyPrint)) ∧
    colTagRender
        (colAdd [] "ifDescr" [SnmpValue.val "Integer" 4,
          SnmpValue.val "Integer" 6] (SnmpValue.val "DisplayString" 3))
        [SnmpValue.val "Integer" 4, SnmpValue.val "Integer" 6]
        ("interface", "ifDescr") =
      some ("interface" ++ ":" ++
        (SnmpValue.val "DisplayString" 3).prettyPrint) :=
  ⟨by decide, by decide, by decide,
   (C8_tag_resolution [SnmpValue.val "Integer" 4, SnmpValue.val "Integer" 6]
      [] [("ipVersion", 2)] [("interface", "ifDescr")]).2.1 "ipVersion" 2
      (by decide) (by decide),
   (C8_tag_resolution [SnmpValue.val "Integer" 4, SnmpValue.val "Integer" 6]
      [] [("ipVersion", 2)] [("interface", "ifDescr")]).2.2.2.2.2.2.2.1
      "interface" "ifDescr" (SnmpValue.val "DisplayString" 3) (by decide)⟩

/-- C9: raw-OID reporting scans the ResultSet in order and picks the
FIRST key that has the configured OID string as a prefix, submitting its
value under the configured name (default `unnamed_metric`); with no
matching key it warns and moves on to the next spec without failing the
cycle.  On the concrete example of the spec — key
`1.3.6.1.2.1.2.2.1.10.1` holding a `Gauge32` 500 against configured OID
`1.3.6.1.2.1.2.2.1.10` — the cycle submits a gauge of 500 and ends OK. -/
theorem C9_raw_reporting :
    (∀ (results : ResultSet) (q k : String) (en : RSEntry),
      firstMatch results q = some (k, en) →
        pyStartsWith k q = true ∧ (k, en) ∈ results) ∧
    (∀ (pre post : ResultSet) (q k : String) (en : RSEntry),
      (∀ p ∈ pre, pyStartsWith p.1 q = false) → pyStartsWith k q = true →
      firstMatch (pre ++ (k, en) :: post) q = some (k, en)) ∧
    (∀ (tags : List String) (results : ResultSet) (m : MetricConf)
        (ms : List MetricConf) (q k : String) (v : SnmpValue),
      m.OID = some q → firstMatch results q = some (k, .flat v) →
      reportRawGo tags results (m :: ms) =
        (submit_metric (m.name.getD "unnamed_metric") v tags ++
           (reportRawGo tags results ms).1,
         (reportRawGo tags results ms).2)) ∧
    (∀ (tags : List String) (results : ResultSet) (m : MetricConf)
        (ms : List MetricConf) (q : String),
      m.OID = some q → firstMatch results q = none →
      reportRawGo tags results (m :: ms) =
        (.warn ("No matching results found for oid " ++ q) ::
           (reportRawGo tags results ms).1,
         (reportRawGo tags results ms).2)) ∧
    (check rawExampleInstance rawExampleDevice).1 =
      [.debug "Querying device 1.2.3.4 for 1 oids",
       .gauge "snmp.unnamed_metric" 500 ["snmp_device:1.2.3.4"],
       .serviceCheck "snmp.can_check" false ["snmp_device:1.2.3.4"] none] ∧
    (check rawExampleInstance rawExampleDevice).2 = .ok () := by
  refine ⟨?_, ?_, ?_, ?_, rfl, rfl⟩
  · intro results q k en h
    exact ⟨by simpa using List.find?_some h, List.mem_of_find?_eq_some h⟩
  · intro pre
    induction pre with
    | nil =>
      intro post q k en _ hk
      simp [firstMatch, List.find?, hk]
    | cons p pre ih =>
      intro post q k en hpre hk
      have hp : (fun (x : String × RSEntry) => pyStartsWith x.1 q) p = false :=
        hpre p (List.mem_cons_self p pre)
      have htail : ∀ x ∈ pre, pyStartsWith x.1 q = false :=
        fun x hx => hpre x (List.mem_cons_of_mem p hx)
      have := ih post q k en htail hk
      simp only [firstMatch] at this ⊢
      rw [List.cons_append, List.find?_cons_of_neg _ (by simp [hp])]
      exact this
  · intro tags results m ms q k v hO hf
    rcases hrec : reportRawGo tags results ms with ⟨evs, r⟩
    simp [reportRawGo, hO, hf, hrec]
  · intro tags results m ms q hO hf
    rcases hrec : reportRawGo tags results ms with ⟨evs, r⟩
    simp [reportRawGo, hO, hf, hrec]

/-- Witness for C9 at the concrete example of the spec. -/
theorem C9_witness :
    firstMatch
        [("1.3.6.1.2.1.2.2.1.10.1", RSEntry.flat (.val "Gauge32" 500))]
        "1.3.6.1.2.1.2.2.1.10" =
      some ("1.3.6.1.2.1.2.2.1.10.1", RSEntry.flat (.val "Gauge32" 500)) ∧
    reportRawGo ["snmp_device:1.2.3.4"]
        [("1.3.6.1.2.1.2.2.1.10.1", RSEntry.flat (.val "Gauge32" 500))]
        [{ emptyMetric with OID := some "1.3.6.1.2.1.2.2.1.10" }] =
      ([.gauge ("snmp" ++ "." ++ "unnamed_metric") 500 ["snmp_device:1.2.3.4"]],
       .ok ()) := by
  constructor
  · exact C9_raw_reporting.2.1 []
      [] "1.3.6.1.2.1.2.2.1.10" "1.3.6.1.2.1.2.2.1.10.1"
      (RSEntry.flat (.val "Gauge32" 500)) (by simp) rfl
  · exact (C9_raw_reporting.2.2.1 ["snmp_device:1.2.3.4"]
      [("1.3.6.1.2.1.2.2.1.10.1", RSEntry.flat (.val "Gauge32" 500))]
      { emptyMetric with OID := some "1.3.6.1.2.1.2.2.1.10" } []
      "1.3.6.1.2.1.2.2.1.10" "1.3.6.1.2.1.2.2.1.10.1"
      (SnmpValue.val "Gauge32" 500) rfl rfl).trans rfl

end Snmp
